import Mathlib

/-!
# ux_gui_api: the GUID-indexed client interface loader

A shallow embedding of `api/client_interface.h`, `api/client_interface.cpp` and
`api/library_linkage.h`: the link table record, the capability slots, the
static `guid_index` binder map, `client_interface_t::initialize` and
`client_interface_t::terminate`; and of the identity part of the class
declarations of `api/api_declaration.h`.

Conventions of the embedding.
* A `std::function` member is an `Option`: `none` is the empty function object
  (invoking it throws `std::bad_function_call`), `some c` is a non-empty one.
* A raw pointer is a natural number; what runs when the client calls through a
  pointer it obtained from the library is given by a `shared_library_t`.
* A `double` is only stored and forwarded by this code, never computed with; it
  is represented by its 64-bit pattern.
* Every call that leaves the object (host loader callables, library entry
  points, binders) is recorded, in order, in a list of `call_t`.
-/

namespace uxdevice

/-- A raw pointer (`void *`) delivered across the library boundary. -/
abbrev raw_ptr_t := Nat

/-- A `double` version token, held as its IEEE-754 bit pattern. -/
abbrev version_t := Nat

/-- Modelled from the spec: the identity constants of `api/interface_guid.h`,
which is not among the sources. The spec makes an InterfaceGUID an opaque
identity with equality only, unique per interface, so a GUID is represented by
the name of its constant in `interface_alias`. The constructors `fn_save` ..
`fn_notify_complete` are the constants used as keys of `guid_index`,
`link_table_entry_t` is the tag of the link table record itself, and
`unlisted id` stands for every other identity value. -/
inductive interface_guid_t
  | fn_save
  | fn_restore
  | fn_push
  | fn_pop
  | fn_translate
  | fn_rotate
  | fn_device_offset
  | fn_device_scale
  | fn_scale
  | fn_transform
  | fn_matrix
  | fn_identity
  | fn_device
  | fn_device_distance
  | fn_user
  | fn_user_distance
  | fn_notify_complete
  | link_table_entry_t
  | unlisted (id : Nat)
  deriving DecidableEq, Repr

/-- The C++ types that occur in the signatures of the linkage surface. -/
inductive ctype_t
  | void
  | bool
  | double
  | double_ref
  | size_t
  | void_ptr
  | char_ptr
  | content_type
  | content_type_ref
  | matrix_ptr
  | matrix_ref
  | client_data_ptr
  | const_string_ref
  | string
  deriving DecidableEq, Repr

/-- A function signature `ret(params...)`; `void(void)` has no parameter. -/
structure signature_t where
  ret : ctype_t
  params : List ctype_t
  deriving DecidableEq, Repr

/-- The value `bind<S>(fn, placeholders...)` stored into a `std::function`: the
signature `S` the raw pointer is reinterpreted as, the pointer, and the
placeholder numbers passed along. -/
structure callable_t where
  signature : signature_t
  target : raw_ptr_t
  placeholders : List Nat
  deriving DecidableEq, Repr

/-- The expression `bind<S>(fn, placeholders...)`. -/
def bind (signature : signature_t) (fn : raw_ptr_t) (placeholders : List Nat) :
    callable_t :=
  { signature := signature, target := fn, placeholders := placeholders }

/-- The record of `client_interface.h` lines 37-41; `alias_guid` is its member
`alias` (a reserved word here). The bind loop reads the pointer member under
the name `fn_ptr`. -/
structure link_table_entry_t where
  alias_guid : interface_guid_t := interface_guid_t.link_table_entry_t
  guid : interface_guid_t
  ptr : raw_ptr_t
  deriving DecidableEq, Repr

/-- The capability slots of `library_linkage.h` lines 35-63. -/
structure library_interface_linkage_t where
  fn_input_resource : Option callable_t := none
  fn_linked_mapped_objects_find_size_t : Option callable_t := none
  fn_linked_mapped_objects_find_string : Option callable_t := none
  fn_save : Option callable_t := none
  fn_restore : Option callable_t := none
  fn_push : Option callable_t := none
  fn_pop : Option callable_t := none
  fn_scale : Option callable_t := none
  fn_transform : Option callable_t := none
  fn_matrix : Option callable_t := none
  fn_identity : Option callable_t := none
  fn_translate : Option callable_t := none
  fn_rotate : Option callable_t := none
  fn_device : Option callable_t := none
  fn_device_distance : Option callable_t := none
  fn_device_offset : Option callable_t := none
  fn_device_scale : Option callable_t := none
  fn_user : Option callable_t := none
  fn_user_distance : Option callable_t := none
  fn_notify_complete : Option callable_t := none
  deriving DecidableEq, Repr

/-- The members of `client_interface_t` (`client_interface.h` lines 43-72)
together with the capability slots the binders of `guid_index` write through
`o.fn_save`, `o.fn_restore`, ... A host callable yields `Except.error what`
when it throws a `std::exception` whose message is `what`. The header declares
`fn_library_symbol` as returning `void`; `initialize` uses what it returns as
the raw pointer of the symbol, which is the type it has here. -/
structure client_interface_t extends library_interface_linkage_t where
  system_version : version_t := 0
  error_message : String := ""
  fn_library_open : Option (String → Except String Unit) := none
  fn_library_close : Option (Unit → Except String Unit) := none
  fn_library_symbol : Option (String → Except String raw_ptr_t) := none
  fn_library_error : Option (Unit → String) := none
  fn_system_version : Option callable_t := none
  fn_guid_interface_linkage_size : Option callable_t := none
  fn_guid_interface_linkage : Option callable_t := none
  library_name : String := ""
  library_filename : String := ""

/-- The signature `void(void)`. -/
def sig_void : signature_t := { ret := ctype_t.void, params := [] }

/-- The signature `void(double &, double &)`. -/
def sig_double_ref2 : signature_t :=
  { ret := ctype_t.void, params := [ctype_t.double_ref, ctype_t.double_ref] }

/-- The signature `void(double &)`. -/
def sig_double_ref : signature_t :=
  { ret := ctype_t.void, params := [ctype_t.double_ref] }

/-- The signature `void(content_type_t)`. -/
def sig_content_type : signature_t :=
  { ret := ctype_t.void, params := [ctype_t.content_type] }

/-- The signature `void(matrix_t *)`. -/
def sig_matrix_ptr : signature_t :=
  { ret := ctype_t.void, params := [ctype_t.matrix_ptr] }

/-- The type of a binder, `(client_interface_t &o, auto fn)`. -/
abbrev binder_t := client_interface_t → raw_ptr_t → client_interface_t

/-- The static table `client_interface_t::guid_index`
(`client_interface.cpp` lines 164-260), in source order. -/
def guid_index : List (interface_guid_t × binder_t) :=
  [ (.fn_save, fun o fn => { o with fn_save := some (bind sig_void fn []) }),
    (.fn_restore, fun o fn => { o with fn_restore := some (bind sig_void fn []) }),
    (.fn_push, fun o fn => { o with fn_push := some (bind sig_content_type fn [1]) }),
    (.fn_pop, fun o fn => { o with fn_pop := some (bind sig_void fn []) }),
    (.fn_translate,
      fun o fn => { o with fn_translate := some (bind sig_double_ref2 fn [1, 2]) }),
    (.fn_rotate, fun o fn => { o with fn_rotate := some (bind sig_double_ref fn [1]) }),
    (.fn_device_offset,
      fun o fn => { o with fn_device_offset := some (bind sig_double_ref2 fn [1, 2]) }),
    (.fn_device_scale,
      fun o fn => { o with fn_device_scale := some (bind sig_double_ref2 fn [1, 2]) }),
    (.fn_scale, fun o fn => { o with fn_scale := some (bind sig_double_ref2 fn [1, 2]) }),
    (.fn_transform, fun o fn => { o with fn_transform := some (bind sig_matrix_ptr fn []) }),
    (.fn_matrix, fun o fn => { o with fn_matrix := some (bind sig_matrix_ptr fn [1]) }),
    (.fn_identity, fun o fn => { o with fn_identity := some (bind sig_void fn []) }),
    (.fn_device, fun o fn => { o with fn_device := some (bind sig_double_ref2 fn [1, 2]) }),
    (.fn_device_distance,
      fun o fn => { o with fn_device_distance := some (bind sig_double_ref2 fn [1, 2]) }),
    (.fn_user, fun o fn => { o with fn_user := some (bind sig_double_ref2 fn [1, 2]) }),
    (.fn_user_distance,
      fun o fn => { o with fn_user_distance := some (bind sig_double_ref2 fn [1, 2]) }),
    (.fn_notify_complete,
      fun o fn => { o with fn_notify_complete := some (bind sig_void fn []) }) ]

/-- The call `guid_index.find(g)`: `none` is `guid_index.end()`. -/
def guid_index_find (g : interface_guid_t) : Option binder_t :=
  guid_index.lookup g

/-- One iteration of the loop of `initialize` (lines 136-148): look the entry's
`guid` member up; skip the entry when it is not a key, otherwise run the binder
on the object and the entry's pointer. -/
def bind_entry (o : client_interface_t) (n : link_table_entry_t) : client_interface_t :=
  match guid_index_find n.guid with
  | none => o
  | some binder => binder o n.ptr

/-- The loop `for (auto n : link_table)` of `initialize`. -/
def bind_table (o : client_interface_t) (link_table : List link_table_entry_t) :
    client_interface_t :=
  link_table.foldl bind_entry o

/-- What the catch block of `initialize` puts into the message of the
`std::runtime_error` it throws: the requested file, the requested version, the
`what()` of the caught exception and the text of `dlerror()` when there is
one. -/
structure load_error_t where
  library : String
  version : version_t
  what : String
  dlsym_error : Option String
  deriving DecidableEq, Repr

/-- The exceptions that occur: `std::bad_function_call` from invoking an empty
`std::function`, a `std::exception` thrown by a host callable, the
`std::runtime_error` of `initialize`, and the `std::length_error` and
`std::bad_alloc` of `std::vector::reserve`. -/
inductive exception_t
  | bad_function_call
  | exception (what : String)
  | runtime_error (e : load_error_t)
  | length_error
  | bad_alloc
  deriving DecidableEq, Repr

/-- The member `what()` of an exception. -/
def exception_t.what : exception_t → String
  | .bad_function_call => "bad_function_call"
  | .exception what => what
  | .runtime_error e => e.what
  | .length_error => "vector::reserve"
  | .bad_alloc => "std::bad_alloc"

/-- A call that leaves the object: the host loader callables, the three library
entry points reached through the pointers the symbol lookup returned, and the
binders of `guid_index`. `guid_interface_linkage fn v capacity count` is the
fill call with a buffer of `capacity` records and the count `count`. -/
inductive call_t
  | library_open (library : String)
  | library_symbol (name : String)
  | library_close
  | system_version (fn : raw_ptr_t)
  | guid_interface_linkage_size (fn : raw_ptr_t) (version : version_t)
  | guid_interface_linkage (fn : raw_ptr_t) (version : version_t) (capacity : Nat)
      (count : Nat)
  | binder (guid : interface_guid_t) (fn : raw_ptr_t)
  deriving DecidableEq, Repr

/-- The loaded library and the process around the object as the client sees
them: what the code behind a raw pointer does when it is called as
`double(void)`, as `size_t(double)` and as `void(double, void *, size_t)` (the
records it writes into the buffer, from its start), the text `dlerror()`
returns, and the allocator behind `std::vector<link_table_entry_t>`: its
`max_size()` and whether storage for a given number of records can be
allocated. -/
structure shared_library_t where
  system_version : raw_ptr_t → version_t
  guid_interface_linkage_size : raw_ptr_t → version_t → Nat
  guid_interface_linkage : raw_ptr_t → version_t → Nat → List link_table_entry_t
  dlerror : Option String
  max_size : Nat
  allocate : Nat → Bool

/-- The outcome of a member function: the calls it made, the object when it
ended, and the exception it threw (`none` when it returned normally). -/
structure run_t where
  calls : List call_t
  self : client_interface_t
  thrown : Option exception_t

/-- A `std::vector<link_table_entry_t>`: the records lying in its raw storage
`data()`, its capacity and its size. -/
structure vector_t where
  storage : List link_table_entry_t := []
  capacity : Nat := 0
  size : Nat := 0
  deriving DecidableEq, Repr

/-- The member `reserve(n)`: it throws `std::length_error` when `n` exceeds
`max_size()`; a request within the present capacity does nothing; otherwise
new storage for `n` records is allocated, which throws `std::bad_alloc` when
the allocation fails, and the capacity becomes `n`. The size is untouched. -/
def vector_t.reserve (v : vector_t) (n : Nat) (max_size : Nat) (allocate : Nat → Bool) :
    Except exception_t vector_t :=
  if max_size < n then .error .length_error
  else if n ≤ v.capacity then .ok v
  else if allocate n then .ok { v with capacity := n }
  else .error .bad_alloc

/-- The range `begin() .. end()`: the first `size()` records of the storage. -/
def vector_t.elements (v : vector_t) : List link_table_entry_t :=
  v.storage.take v.size

/-- The signature `std::size_t(double)`. -/
def sig_size_of_double : signature_t :=
  { ret := ctype_t.size_t, params := [ctype_t.double] }

/-- The signature `void(double, void *, size_t)`. -/
def sig_fill : signature_t :=
  { ret := ctype_t.void, params := [ctype_t.double, ctype_t.void_ptr, ctype_t.size_t] }

/-- The call `fn_library_symbol(name)` inside the try block. -/
def resolve (o : client_interface_t) (name : String) :
    List call_t × Except exception_t raw_ptr_t :=
  match o.fn_library_symbol with
  | none => ([], .error .bad_function_call)
  | some library_symbol =>
    match library_symbol name with
    | .error what => ([.library_symbol name], .error (.exception what))
    | .ok p => ([.library_symbol name], .ok p)

/-- The try block of `initialize` (lines 82-99): open the library, then look
up and store the three entry points; the assignments made before a throw
stay. -/
def load (o : client_interface_t) (library : String) : run_t :=
  match o.fn_library_open with
  | none => { calls := [], self := o, thrown := some .bad_function_call }
  | some library_open =>
    match library_open library with
    | .error what =>
      { calls := [.library_open library], self := o, thrown := some (.exception what) }
    | .ok _ =>
      match resolve o "fn_system_version" with
      | (c1, .error e) => { calls := .library_open library :: c1, self := o, thrown := some e }
      | (c1, .ok p1) =>
        let o1 := { o with fn_system_version := some (bind sig_void p1 []) }
        match resolve o1 "fn_guid_interface_linkage_size" with
        | (c2, .error e) =>
          { calls := .library_open library :: (c1 ++ c2), self := o1, thrown := some e }
        | (c2, .ok p2) =>
          let o2 :=
            { o1 with fn_guid_interface_linkage_size := some (bind sig_size_of_double p2 [1]) }
          match resolve o2 "fn_guid_interface_linkage" with
          | (c3, .error e) =>
            { calls := .library_open library :: (c1 ++ c2 ++ c3), self := o2, thrown := some e }
          | (c3, .ok p3) =>
            { calls := .library_open library :: (c1 ++ c2 ++ c3),
              self := { o2 with fn_guid_interface_linkage := some (bind sig_fill p3 [1, 2, 3]) },
              thrown := none }

/-- The binder invocation `it->second(*this, n.fn_ptr)` of one loop iteration,
as a call; nothing for a skipped entry. -/
def bind_call (n : link_table_entry_t) : List call_t :=
  match guid_index_find n.guid with
  | none => []
  | some _ => [.binder n.guid n.ptr]

/-- The part of `initialize` after the try block (lines 111-148), on the object
`o` the try block left and with the calls `pre` made so far. The source spells
the member assigned on line 115 `system_verion` and the callable invoked on
line 132 `fn_guid_interface_linkage_t`; they are the members `system_version`
and `fn_guid_interface_linkage`. Nothing here is inside a try block: an
exception of `reserve` on line 123 leaves `initialize` as it is. -/
def negotiate (w : shared_library_t) (pre : List call_t) (o : client_interface_t)
    (version_number : version_t) : run_t :=
  match o.fn_system_version with
  | none => { calls := pre, self := o, thrown := some .bad_function_call }
  | some f_version =>
    let o1 := { o with system_version := w.system_version f_version.target }
    match o1.fn_guid_interface_linkage_size with
    | none =>
      { calls := pre ++ [.system_version f_version.target], self := o1,
        thrown := some .bad_function_call }
    | some f_size =>
      let link_table_size := w.guid_interface_linkage_size f_size.target version_number
      match ({} : vector_t).reserve link_table_size w.max_size w.allocate with
      | .error e =>
        { calls := pre ++ [.system_version f_version.target,
            .guid_interface_linkage_size f_size.target version_number],
          self := o1, thrown := some e }
      | .ok link_table =>
        match o1.fn_guid_interface_linkage with
        | none =>
          { calls := pre ++ [.system_version f_version.target,
              .guid_interface_linkage_size f_size.target version_number],
            self := o1, thrown := some .bad_function_call }
        | some f_fill =>
          let filled : vector_t :=
            { link_table with
              storage :=
                w.guid_interface_linkage f_fill.target version_number link_table.size }
          { calls := pre ++ [.system_version f_version.target,
              .guid_interface_linkage_size f_size.target version_number,
              .guid_interface_linkage f_fill.target version_number link_table.capacity
                link_table.size] ++ filled.elements.flatMap bind_call,
            self := bind_table o1 filled.elements,
            thrown := none }

/-- The member `client_interface_t::initialize` (lines 78-149): the try block,
its catch block turning any `std::exception` into a `std::runtime_error`, then
the negotiation and the bind loop. -/
def client_interface_t.initialize (w : shared_library_t) (o : client_interface_t) (library : String)
    (version_number : version_t) : run_t :=
  let r := load o library
  match r.thrown with
  | some e =>
    { calls := r.calls, self := r.self,
      thrown := some (.runtime_error
        { library := library, version := version_number, what := e.what,
          dlsym_error := w.dlerror }) }
  | none => negotiate w r.calls r.self version_number

/-- The default constructor (line 32): every member takes its initialiser. -/
def default_constructed : client_interface_t := {}

/-- The constructor `client_interface_t(_library_name, _version)` (lines 35-38):
`initialize` on the freshly initialised object. -/
def constructed (w : shared_library_t) (library_name : String) (version : version_t) :
    run_t :=
  client_interface_t.initialize w default_constructed library_name version

/-! ## Scenarios

A host whose loader callables are set, and libraries that publish a link table
per requested version; they serve as the concrete inputs of the theorems. -/

/-- A host `open`: every path loads except `missing.lib`. -/
def host_open (library : String) : Except String Unit :=
  if library = "missing.lib" then .error "cannot open shared object file" else .ok ()

/-- A host symbol lookup that knows the three entry points. -/
def host_symbol (name : String) : Except String raw_ptr_t :=
  if name = "fn_system_version" then .ok 101
  else if name = "fn_guid_interface_linkage_size" then .ok 102
  else if name = "fn_guid_interface_linkage" then .ok 103
  else .error "undefined symbol"

/-- A default-constructed object whose loader callables the host has set. -/
def hosted : client_interface_t :=
  { fn_library_open := some host_open,
    fn_library_close := some (fun _ => .ok ()),
    fn_library_symbol := some host_symbol }

/-- The value of `max_size()` for a vector of 40-byte records (two 16-byte
GUIDs and a pointer) on a 64-bit platform: the largest `ptrdiff_t` divided by
the record size. -/
def record_max_size : Nat := (2 ^ 63 - 1) / 40

/-- A library with system version `sv` that publishes `table v` to a client
requesting version `v`: the size query returns the length of the table and the
fill call writes its first `count` records. Every allocation succeeds. -/
def publishing_library (sv : version_t) (table : version_t → List link_table_entry_t) :
    shared_library_t :=
  { system_version := fun _ => sv,
    guid_interface_linkage_size := fun _ v => (table v).length,
    guid_interface_linkage := fun _ v count => (table v).take count,
    dlerror := none,
    max_size := record_max_size,
    allocate := fun _ => true }

/-- The version token 1.0 as a bit pattern. -/
def version_1_0 : version_t := 0x3FF0000000000000

/-- The link table of scenario 1: `save`, `restore` and a GUID unknown to the
binder map. -/
def scenario_1_table : List link_table_entry_t :=
  [ { guid := .fn_save, ptr := 11 },
    { guid := .fn_restore, ptr := 12 },
    { guid := .unlisted 0, ptr := 13 } ]

/-- The library of scenario 1: it publishes `scenario_1_table` for every
requested version. -/
def scenario_1_library : shared_library_t :=
  publishing_library version_1_0 (fun _ => scenario_1_table)

/-! ## Observations on objects and call lists -/

/-- The capability slot that carries the name of the identity constant `g`;
nothing for a constant that names no slot. -/
def slot (g : interface_guid_t) (o : client_interface_t) : Option callable_t :=
  match g with
  | .fn_save => o.fn_save
  | .fn_restore => o.fn_restore
  | .fn_push => o.fn_push
  | .fn_pop => o.fn_pop
  | .fn_translate => o.fn_translate
  | .fn_rotate => o.fn_rotate
  | .fn_device_offset => o.fn_device_offset
  | .fn_device_scale => o.fn_device_scale
  | .fn_scale => o.fn_scale
  | .fn_transform => o.fn_transform
  | .fn_matrix => o.fn_matrix
  | .fn_identity => o.fn_identity
  | .fn_device => o.fn_device
  | .fn_device_distance => o.fn_device_distance
  | .fn_user => o.fn_user
  | .fn_user_distance => o.fn_user_distance
  | .fn_notify_complete => o.fn_notify_complete
  | .link_table_entry_t => none
  | .unlisted _ => none

/-- What binding an entry with GUID `g` and pointer `p` puts into the slot named
`g`, read off the code by running the loop body on a fresh object. -/
def stored (g : interface_guid_t) (p : raw_ptr_t) : Option callable_t :=
  slot g (bind_entry default_constructed { guid := g, ptr := p })

/-- The object with its seventeen keyed slots emptied: the part of the object
that no binder of `guid_index` writes. -/
def without_keyed_slots (o : client_interface_t) : client_interface_t :=
  { o with
    fn_save := none, fn_restore := none, fn_push := none, fn_pop := none,
    fn_translate := none, fn_rotate := none, fn_device_offset := none,
    fn_device_scale := none, fn_scale := none, fn_transform := none, fn_matrix := none,
    fn_identity := none, fn_device := none, fn_device_distance := none, fn_user := none,
    fn_user_distance := none, fn_notify_complete := none }

/-- The pointer of the last entry of the table whose `guid` is `g`. -/
def last_ptr (g : interface_guid_t) (t : List link_table_entry_t) : Option raw_ptr_t :=
  (t.reverse.find? (fun n => n.guid = g)).map (fun n => n.ptr)

/-- The names `initialize` passes to `fn_library_symbol`, in source order
(lines 87, 92 and 97). -/
def required_symbols : List String :=
  ["fn_system_version", "fn_guid_interface_linkage_size", "fn_guid_interface_linkage"]

/-- The names the entry points carry in the spec's list of exported symbols. -/
def spec_symbols : List String :=
  ["system_version", "guid_interface_linkage_size", "guid_interface_linkage"]

/-- The names looked up, in order, among a list of calls. -/
def symbol_lookups (calls : List call_t) : List String :=
  calls.filterMap fun c =>
    match c with
    | .library_symbol name => some name
    | _ => none

/-- Whether a call is the size query. -/
def call_t.is_size_query : call_t → Bool
  | .guid_interface_linkage_size _ _ => true
  | _ => false

/-- Whether a call is the fill call. -/
def call_t.is_fill : call_t → Bool
  | .guid_interface_linkage _ _ _ _ => true
  | _ => false

/-- Whether a call is a binder invocation. -/
def call_t.is_binder : call_t → Bool
  | .binder _ _ => true
  | _ => false

/-- Whether a call belongs to the part of `initialize` after the try block:
the system-version query, the size query, the fill call or a binder. -/
def call_t.after_load : call_t → Bool
  | .system_version _ => true
  | .guid_interface_linkage_size _ _ => true
  | .guid_interface_linkage _ _ _ _ => true
  | .binder _ _ => true
  | _ => false

/-- Opening `library` fails: the host's open callable throws. -/
def open_fails (o : client_interface_t) (library : String) : Prop :=
  ∃ f what, o.fn_library_open = some f ∧ f library = .error what

/-- The symbol `name` cannot be resolved: the host's lookup callable throws. -/
def symbol_missing (o : client_interface_t) (name : String) : Prop :=
  ∃ f what, o.fn_library_symbol = some f ∧ f name = .error what

/-- The load phase fails: the library does not open, or one of the symbols
`initialize` asks for is missing. -/
def load_fails (o : client_interface_t) (library : String) : Prop :=
  open_fails o library ∨ ∃ name ∈ required_symbols, symbol_missing o name

/-- The object the try block leaves when it passes and the three lookups
returned the pointers `p1`, `p2`, `p3`. -/
def loaded (o : client_interface_t) (p1 p2 p3 : raw_ptr_t) : client_interface_t :=
  { o with
    fn_system_version := some (bind sig_void p1 []),
    fn_guid_interface_linkage_size := some (bind sig_size_of_double p2 [1]),
    fn_guid_interface_linkage := some (bind sig_fill p3 [1, 2, 3]) }

/-- The outcome of line 123 for the size the library reports through the
pointer `p2`: `reserve` on the freshly constructed vector. -/
def reserved (w : shared_library_t) (p2 : raw_ptr_t) (v : version_t) :
    Except exception_t vector_t :=
  ({} : vector_t).reserve (w.guid_interface_linkage_size p2 v) w.max_size w.allocate

/-- A library whose size query answers with the largest `size_t`, more than
`max_size()`; otherwise like the library of scenario 1. -/
def oversized_library : shared_library_t :=
  { scenario_1_library with guid_interface_linkage_size := fun _ _ => 2 ^ 64 - 1 }

/-- A process in which no storage can be allocated; otherwise like the library
of scenario 1. -/
def exhausted_library : shared_library_t :=
  { scenario_1_library with allocate := fun _ => false }

/-- An object on which the bind loop has bound the `save` slot. -/
def bound_save : client_interface_t :=
  bind_table hosted [{ guid := .fn_save, ptr := 11 }]

/-! ## Declared signatures of the capability slots -/

/-- The signature `void(bool)`. -/
def sig_bool : signature_t := { ret := ctype_t.void, params := [ctype_t.bool] }

/-- The signature `void(double, double)`. -/
def sig_double2 : signature_t :=
  { ret := ctype_t.void, params := [ctype_t.double, ctype_t.double] }

/-- The signature `void(double)`. -/
def sig_double : signature_t := { ret := ctype_t.void, params := [ctype_t.double] }

/-- The signature `void(content_type_t &)`. -/
def sig_content_type_ref : signature_t :=
  { ret := ctype_t.void, params := [ctype_t.content_type_ref] }

/-- The signature `void(matrix_t &)`. -/
def sig_matrix_ref : signature_t :=
  { ret := ctype_t.void, params := [ctype_t.matrix_ref] }

/-- The template argument of the `std::function` member of
`library_interface_linkage_t` (`library_linkage.h` lines 42-62) that carries
the name of the identity constant `g`. -/
def slot_signature (g : interface_guid_t) : Option signature_t :=
  match g with
  | .fn_save => some sig_void
  | .fn_restore => some sig_void
  | .fn_push => some sig_content_type_ref
  | .fn_pop => some sig_bool
  | .fn_scale => some sig_double2
  | .fn_transform => some sig_matrix_ref
  | .fn_matrix => some sig_matrix_ref
  | .fn_identity => some sig_void
  | .fn_translate => some sig_double2
  | .fn_rotate => some sig_double
  | .fn_device => some sig_double2
  | .fn_device_distance => some sig_double2
  | .fn_device_offset => some sig_double2
  | .fn_device_scale => some sig_double2
  | .fn_user => some sig_double2
  | .fn_user_distance => some sig_double2
  | .fn_notify_complete => some sig_void
  | .link_table_entry_t => none
  | .unlisted _ => none

/-- The object types of the linkage surface, with no regard to how a value is
passed. -/
inductive object_type_t
  | void
  | bool
  | double
  | size_t
  | char
  | content_type
  | matrix
  | client_data
  | string
  deriving DecidableEq, Repr

/-- The object type behind a C++ type: a reference or pointer is stripped. -/
def ctype_t.object : ctype_t → object_type_t
  | .void => .void
  | .bool => .bool
  | .double => .double
  | .double_ref => .double
  | .size_t => .size_t
  | .void_ptr => .void
  | .char_ptr => .char
  | .content_type => .content_type
  | .content_type_ref => .content_type
  | .matrix_ptr => .matrix
  | .matrix_ref => .matrix
  | .client_data_ptr => .client_data
  | .const_string_ref => .string
  | .string => .string

/-- The object types of the parameters of a signature, in order. -/
def signature_t.objects (s : signature_t) : List object_type_t :=
  s.params.map ctype_t.object

/-- The keys of `guid_index`, in source order. -/
def guid_index_keys : List interface_guid_t :=
  guid_index.map Prod.fst

/-- A link table with one entry for every key of `guid_index`, the entry of the
key at position `i` carrying the pointer `100 + i`, followed by an entry with a
GUID that is not a key. -/
def full_table : List link_table_entry_t :=
  (guid_index_keys.enum.map fun (i, g) => { guid := g, ptr := 100 + i }) ++
    [{ guid := .unlisted 0, ptr := 99 }]

/-- A link table in which the `save` GUID occurs twice, around a `restore`
entry and an unknown one. -/
def repeated_save_table : List link_table_entry_t :=
  [ { guid := .fn_save, ptr := 11 },
    { guid := .fn_restore, ptr := 12 },
    { guid := .fn_save, ptr := 21 },
    { guid := .unlisted 0, ptr := 13 } ]

/-- The binder stored under the key `fn_save` (lines 166-169). -/
def save_binder : binder_t :=
  fun o fn => { o with fn_save := some (bind sig_void fn []) }

end uxdevice

namespace uxapi

/-! ## The drawing-attribute classes of `api_declaration.h` -/

/-- What a class declaration of `api_declaration.h` fixes about identity: the
class name, the argument `T` of its base `typed_index_t<T>`, and the constant
`interface_alias::X` its member `alias` is initialised with. -/
structure class_declaration_t where
  name : String
  typed_index : String
  alias_name : String
  deriving DecidableEq, Repr

/-- The class declarations of `api_declaration.h` lines 60-318, in source
order. -/
def api_declaration : List class_declaration_t :=
  [
    { name := "absolute_coordinate_t", typed_index := "absolute_coordinate_t", alias_name := "absolute_coordinate_t" },
    { name := "coordinate_t", typed_index := "coordinate_t", alias_name := "coordinate_t" },
    { name := "relative_coordinate_t", typed_index := "relative_coordinate_t", alias_name := "relative_coordinate_t" },
    { name := "image_block_t", typed_index := "image_block_t", alias_name := "image_block_t" },
    { name := "mask_t", typed_index := "mask_t", alias_name := "mask_t" },
    { name := "fill_path_t", typed_index := "fill_path_t", alias_name := "fill_path_t" },
    { name := "paint_t", typed_index := "paint_t", alias_name := "paint_t" },
    { name := "stroke_fill_path_t", typed_index := "stroke_fill_path_t", alias_name := "stroke_fill_path_t" },
    { name := "stroke_path_t", typed_index := "stroke_path_t", alias_name := "stroke_path_t" },
    { name := "antialias_t", typed_index := "antialias_t", alias_name := "antialias_t" },
    { name := "graphic_operator_t", typed_index := "graphic_operator_t", alias_name := "graphic_operator_t" },
    { name := "line_cap_t", typed_index := "line_cap_t", alias_name := "line_cap_t" },
    { name := "line_dashes_t", typed_index := "line_dashes_t", alias_name := "line_dashes_t" },
    { name := "line_join_t", typed_index := "line_join_t", alias_name := "line_join_t" },
    { name := "line_width_t", typed_index := "line_width_t", alias_name := "line_width_t" },
    { name := "miter_limit_t", typed_index := "miter_limit_t", alias_name := "miter_limit_t" },
    { name := "tollerance_t", typed_index := "tollerance_t", alias_name := "tollerance_t" },
    { name := "arc_t", typed_index := "arc_t", alias_name := "arc_t" },
    { name := "close_path_t", typed_index := "close_path_t", alias_name := "close_path_t" },
    { name := "curve_t", typed_index := "curve_t", alias_name := "curve_t" },
    { name := "hline_t", typed_index := "hline_t", alias_name := "hline_t" },
    { name := "line_t", typed_index := "line_t", alias_name := "line_t" },
    { name := "negative_arc_t", typed_index := "negative_arc_t", alias_name := "negative_arc_t" },
    { name := "vline_t", typed_index := "vline_t", alias_name := "vline_t" },
    { name := "rectangle_t", typed_index := "rectangle_t", alias_name := "rectangle_t" },
    { name := "surface_area_brush_t", typed_index := "surface_area_brush_t", alias_name := "surface_area_brush_t" },
    { name := "surface_area_title_t", typed_index := "surface_area_title_t", alias_name := "surface_area_title_t" },
    { name := "text_alignment_t", typed_index := "text_alignment_t", alias_name := "text_alignment_t" },
    { name := "text_color_t", typed_index := "text_color_t", alias_name := "text_color_t" },
    { name := "text_data_t", typed_index := "text_data_t", alias_name := "text_data_t" },
    { name := "text_ellipsize_t", typed_index := "text_ellipsize_t", alias_name := "text_ellipsize_t" },
    { name := "text_fill_t", typed_index := "text_fill_t", alias_name := "text_fill_t" },
    { name := "text_font_t", typed_index := "text_font_t", alias_name := "text_font_t" },
    { name := "text_indent_t", typed_index := "text_indent_t", alias_name := "text_indent_t" },
    { name := "text_line_space_t", typed_index := "text_line_space_t", alias_name := "text_line_space_t" },
    { name := "text_render_normal_t", typed_index := "absolute_coordinate_t", alias_name := "text_render_normal_t" },
    { name := "text_outline_t", typed_index := "text_outline_t", alias_name := "text_outline_t" },
    { name := "text_render_path_t", typed_index := "text_render_path_t", alias_name := "text_render_path_t" },
    { name := "text_shadow_t", typed_index := "text_shadow_t", alias_name := "text_shadow_t" },
    { name := "text_tab_stops_t", typed_index := "text_tab_stops_t", alias_name := "text_tab_stops_t" } ]

/-- The class follows the pattern: its typed-index argument is the class
itself. -/
def class_declaration_t.tags_itself (c : class_declaration_t) : Bool :=
  c.typed_index == c.name

/-- The class follows the pattern: its alias constant carries its own name. -/
def class_declaration_t.aliases_itself (c : class_declaration_t) : Bool :=
  c.alias_name == c.name

end uxapi

namespace uxdevice

/-! ## Lemmas on the bind loop and on the load phase -/

/-- One loop iteration on the slot named `g`: an entry whose `guid` is `g`
overwrites it with what the binder stores, any other entry leaves it. -/
theorem slot_bind_entry (g : interface_guid_t) (o : client_interface_t)
    (n : link_table_entry_t) :
    slot g (bind_entry o n) = if n.guid = g then stored g n.ptr else slot g o := by
  obtain ⟨na, ng, np⟩ := n
  cases g <;> cases ng <;> first | rfl | simp [slot, stored]

/-- One loop iteration touches nothing but keyed slots. -/
theorem without_keyed_slots_bind_entry (o : client_interface_t) (n : link_table_entry_t) :
    without_keyed_slots (bind_entry o n) = without_keyed_slots o := by
  obtain ⟨na, ng, np⟩ := n
  cases ng <;> rfl

/-- Two objects are equal when their keyed slots agree and they agree outside
the keyed slots. -/
theorem client_interface_eq_of_slots (a b : client_interface_t)
    (hs : ∀ g, slot g a = slot g b)
    (hk : without_keyed_slots a = without_keyed_slots b) : a = b := by
  have h1 := hs .fn_save
  have h2 := hs .fn_restore
  have h3 := hs .fn_push
  have h4 := hs .fn_pop
  have h5 := hs .fn_translate
  have h6 := hs .fn_rotate
  have h7 := hs .fn_device_offset
  have h8 := hs .fn_device_scale
  have h9 := hs .fn_scale
  have h10 := hs .fn_transform
  have h11 := hs .fn_matrix
  have h12 := hs .fn_identity
  have h13 := hs .fn_device
  have h14 := hs .fn_device_distance
  have h15 := hs .fn_user
  have h16 := hs .fn_user_distance
  have h17 := hs .fn_notify_complete
  obtain ⟨⟨⟩, _⟩ := a
  obtain ⟨⟨⟩, _⟩ := b
  simp only [slot] at h1 h2 h3 h4 h5 h6 h7 h8 h9 h10 h11 h12 h13 h14 h15 h16 h17
  simp only [without_keyed_slots, client_interface_t.mk.injEq,
    library_interface_linkage_t.mk.injEq] at hk
  simp only [client_interface_t.mk.injEq, library_interface_linkage_t.mk.injEq]
  simp_all

/-- The bind loop touches nothing but keyed slots. -/
theorem without_keyed_slots_bind_table (t : List link_table_entry_t) (o : client_interface_t) :
    without_keyed_slots (bind_table o t) = without_keyed_slots o := by
  induction t generalizing o with
  | nil => rfl
  | cons n t ih =>
    show without_keyed_slots (bind_table (bind_entry o n) t) = _
    rw [ih, without_keyed_slots_bind_entry]

/-- The last pointer for `g` in `n :: t`: the one of `t` when there is one, else
that of `n` when its `guid` is `g`. -/
theorem last_ptr_cons (g : interface_guid_t) (n : link_table_entry_t)
    (t : List link_table_entry_t) :
    last_ptr g (n :: t) = (last_ptr g t).or (if n.guid = g then some n.ptr else none) := by
  simp only [last_ptr, List.reverse_cons, List.find?_append]
  cases h : List.find? (fun n => decide (n.guid = g)) t.reverse with
  | some m => simp
  | none =>
    by_cases hg : n.guid = g <;> simp [hg]

/-- The bind loop on the slot named `g`: the last entry for `g` decides, and
without such an entry the slot keeps its value. -/
theorem slot_bind_table (g : interface_guid_t) (t : List link_table_entry_t)
    (o : client_interface_t) :
    slot g (bind_table o t) =
      match last_ptr g t with
      | some p => stored g p
      | none => slot g o := by
  induction t generalizing o with
  | nil => rfl
  | cons n t ih =>
    show slot g (bind_table (bind_entry o n) t) = _
    rw [ih, last_ptr_cons]
    cases h : last_ptr g t with
    | some p => simp
    | none =>
      by_cases hg : n.guid = g <;> simp [hg, slot_bind_entry]

/-- The try block: it makes no call of the negotiation, keeps every slot, looks
up a prefix of the required names, throws when the load fails, and when it
does not throw it has made the open call and the three lookups and stored
the three entry points. -/
theorem load_facts (o : client_interface_t) (library : String) :
    (∀ c ∈ (load o library).calls, c.after_load = false) ∧
    (load o library).self.tolibrary_interface_linkage_t = o.tolibrary_interface_linkage_t ∧
    List.IsPrefix (symbol_lookups (load o library).calls) required_symbols ∧
    (load_fails o library → (load o library).thrown ≠ none) ∧
    ((load o library).thrown = none →
      ∃ p1 p2 p3, load o library =
        { calls := .library_open library :: required_symbols.map call_t.library_symbol,
          self := loaded o p1 p2 p3, thrown := none }) := by
  cases ho : o.fn_library_open with
  | none =>
    simp [load, resolve, ho, load_fails, open_fails, symbol_missing, required_symbols, symbol_lookups]
  | some f =>
  cases hf : f library with
  | error e =>
    simp [load, resolve, ho, hf, load_fails, open_fails, symbol_missing, required_symbols, symbol_lookups, call_t.after_load]
  | ok u =>
  cases hs : o.fn_library_symbol with
  | none =>
    simp [load, resolve, ho, hf, hs, load_fails, open_fails, symbol_missing, required_symbols, symbol_lookups, call_t.after_load]
  | some g =>
  cases h1 : g "fn_system_version" with
  | error e =>
    simp [load, resolve, ho, hf, hs, h1, load_fails, open_fails, symbol_missing, required_symbols, symbol_lookups, call_t.after_load]
  | ok p1 =>
  cases h2 : g "fn_guid_interface_linkage_size" with
  | error e =>
    simp [load, resolve, ho, hf, hs, h1, h2, load_fails, open_fails, symbol_missing, required_symbols, symbol_lookups, call_t.after_load]
  | ok p2 =>
  cases h3 : g "fn_guid_interface_linkage" with
  | error e =>
    simp [load, resolve, ho, hf, hs, h1, h2, h3, load_fails, open_fails, symbol_missing, required_symbols, symbol_lookups, call_t.after_load]
  | ok p3 =>
    simp [load, resolve, ho, hf, hs, h1, h2, h3, load_fails, open_fails, symbol_missing, required_symbols, symbol_lookups, call_t.after_load, loaded]
    exact ⟨⟨p1, rfl⟩, ⟨p2, rfl⟩, ⟨p3, rfl⟩⟩

/-- A vector that `reserve` returns has the size and the storage it had. -/
theorem reserve_keeps_size (v lt : vector_t) (n max_size : Nat) (allocate : Nat → Bool)
    (h : v.reserve n max_size allocate = .ok lt) :
    lt.size = v.size ∧ lt.storage = v.storage := by
  unfold vector_t.reserve at h
  split at h
  · cases h
  · split at h
    · cases h; exact ⟨rfl, rfl⟩
    · split at h
      · cases h; exact ⟨rfl, rfl⟩
      · cases h

/-- The negotiation on an object the try block has loaded: it ends with the
exception of `reserve` before any fill call, or makes the fill call with the
count 0 and binds nothing. -/
theorem negotiate_loaded (w : shared_library_t) (pre : List call_t) (o : client_interface_t)
    (p1 p2 p3 : raw_ptr_t) (v : version_t) :
    negotiate w pre (loaded o p1 p2 p3) v =
      match reserved w p2 v with
      | .error e =>
        { calls := pre ++ [.system_version p1, .guid_interface_linkage_size p2 v],
          self := { loaded o p1 p2 p3 with system_version := w.system_version p1 },
          thrown := some e }
      | .ok link_table =>
        { calls := pre ++ [.system_version p1, .guid_interface_linkage_size p2 v,
            .guid_interface_linkage p3 v link_table.capacity 0],
          self := { loaded o p1 p2 p3 with system_version := w.system_version p1 },
          thrown := none } := by
  cases hr : reserved w p2 v with
  | error e =>
    unfold reserved at hr
    simp [negotiate, loaded, bind, hr]
  | ok link_table =>
    unfold reserved at hr
    obtain ⟨hsize, -⟩ := reserve_keeps_size _ _ _ _ _ hr
    have hz : link_table.size = 0 := hsize
    simp [negotiate, loaded, bind, hr, hz, vector_t.elements, bind_table]

/-- The whole run of `initialize` when the try block passes. -/
theorem initialize_of_load_ok (w : shared_library_t) (o : client_interface_t)
    (library : String) (v : version_t) (h : (load o library).thrown = none) :
    ∃ p1 p2 p3, client_interface_t.initialize w o library v =
      match reserved w p2 v with
      | .error e =>
        { calls := .library_open library :: required_symbols.map call_t.library_symbol ++
            [.system_version p1, .guid_interface_linkage_size p2 v],
          self := { loaded o p1 p2 p3 with system_version := w.system_version p1 },
          thrown := some e }
      | .ok link_table =>
        { calls := .library_open library :: required_symbols.map call_t.library_symbol ++
            [.system_version p1, .guid_interface_linkage_size p2 v,
              .guid_interface_linkage p3 v link_table.capacity 0],
          self := { loaded o p1 p2 p3 with system_version := w.system_version p1 },
          thrown := none } := by
  obtain ⟨p1, p2, p3, hl⟩ := (load_facts o library).2.2.2.2 h
  refine ⟨p1, p2, p3, ?_⟩
  unfold client_interface_t.initialize
  simp only [hl, negotiate_loaded]

/-- The whole run of `initialize` when the try block throws. -/
theorem initialize_of_load_thrown (w : shared_library_t) (o : client_interface_t)
    (library : String) (v : version_t) (e : exception_t)
    (h : (load o library).thrown = some e) :
    client_interface_t.initialize w o library v =
      { calls := (load o library).calls, self := (load o library).self,
        thrown := some (.runtime_error
          { library := library, version := v, what := e.what, dlsym_error := w.dlerror }) } := by
  unfold client_interface_t.initialize
  simp only [h]

/-! ## The claims -/

/-- C1, evaluated on scenario 1: the size query answers 3 for version 1.0 and
`initialize` reserves a buffer of 3 records, yet the one fill call it makes
carries the count 0, the size of the vector after `reserve`. -/
theorem initialize_fill_count_scenario_1 :
    scenario_1_library.guid_interface_linkage_size 102 version_1_0 = 3 ∧
    ( client_interface_t.initialize scenario_1_library hosted "lib_ux_gui.so"
        version_1_0).calls.filter call_t.is_fill =
      [.guid_interface_linkage 103 version_1_0 3 0] := by
  decide

/-- C2, evaluated on scenario 1: the library publishes `save`, `restore` and an
unknown GUID for version 1.0 and `initialize` returns normally, yet it invokes
no binder and the `save` and `restore` slots are still empty, while the bind
loop run over the published table would fill both. -/
theorem initialize_scenario_1_binds_nothing :
    ( client_interface_t.initialize scenario_1_library hosted "lib_ux_gui.so"
        version_1_0).thrown = none ∧
    ( client_interface_t.initialize scenario_1_library hosted "lib_ux_gui.so"
        version_1_0).calls.filter call_t.is_binder = [] ∧
    slot .fn_save ( client_interface_t.initialize scenario_1_library hosted "lib_ux_gui.so"
        version_1_0).self = none ∧
    slot .fn_restore ( client_interface_t.initialize scenario_1_library hosted "lib_ux_gui.so"
        version_1_0).self = none ∧
    (slot .fn_save (bind_table hosted scenario_1_table)).isSome = true ∧
    (slot .fn_restore (bind_table hosted scenario_1_table)).isSome = true := by
  decide

/-- C4: an entry whose looked-up GUID has no binder is skipped: no binder is
invoked and the object is exactly what it was. -/
theorem bind_entry_skips_unknown (o : client_interface_t) (n : link_table_entry_t)
    (h : guid_index_find n.guid = none) :
    bind_entry o n = o ∧ bind_call n = [] := by
  simp [bind_entry, bind_call, h]

/-- Witness of `bind_entry_skips_unknown` on the unknown entry of scenario 1. -/
theorem bind_entry_skips_unknown_witness :
    guid_index_find (interface_guid_t.unlisted 0) = none ∧
    bind_entry bound_save { guid := .unlisted 0, ptr := 13 } = bound_save ∧
    bind_call { guid := .unlisted 0, ptr := 13 } = [] :=
  ⟨rfl, bind_entry_skips_unknown bound_save { guid := .unlisted 0, ptr := 13 } rfl⟩

/-- C5: the bind loop is idempotent, `bind (bind s t) t = bind s t`. -/
theorem bind_table_idempotent (s : client_interface_t) (t : List link_table_entry_t) :
    bind_table (bind_table s t) t = bind_table s t := by
  apply client_interface_eq_of_slots
  · intro g
    rw [slot_bind_table g t (bind_table s t), slot_bind_table g t s]
    cases last_ptr g t <;> rfl
  · rw [without_keyed_slots_bind_table]

/-- C8: when the library does not open or a required symbol is missing,
`initialize` throws the `std::runtime_error` naming the requested file and
version, makes no system-version query, size query, fill call or binder call,
and leaves every capability slot as it was. -/
theorem initialize_load_failure (w : shared_library_t) (o : client_interface_t)
    (library : String) (version_number : version_t) (h : load_fails o library) :
    (∃ e, ( client_interface_t.initialize w o library version_number).thrown =
        some (.runtime_error e) ∧ e.library = library ∧ e.version = version_number) ∧
    (∀ c ∈ ( client_interface_t.initialize w o library version_number).calls,
      c.after_load = false) ∧
    ( client_interface_t.initialize w o library version_number).self.tolibrary_interface_linkage_t
      = o.tolibrary_interface_linkage_t := by
  obtain ⟨hcalls, hslots, -, hfail, -⟩ := load_facts o library
  cases ht : (load o library).thrown with
  | none => exact absurd ht (hfail h)
  | some e =>
    rw [initialize_of_load_thrown w o library version_number e ht]
    exact ⟨⟨_, rfl, rfl, rfl⟩, hcalls, hslots⟩

/-- Witness of `initialize_load_failure`: scenario 3, `open("missing.lib")`. -/
theorem initialize_load_failure_witness :
    load_fails hosted "missing.lib" ∧
    (∃ e, ( client_interface_t.initialize scenario_1_library hosted "missing.lib"
        version_1_0).thrown = some (.runtime_error e) ∧
      e.library = "missing.lib" ∧ e.version = version_1_0) ∧
    (∀ c ∈ ( client_interface_t.initialize scenario_1_library hosted "missing.lib"
        version_1_0).calls, c.after_load = false) ∧
    ( client_interface_t.initialize scenario_1_library hosted "missing.lib"
        version_1_0).self.tolibrary_interface_linkage_t =
      hosted.tolibrary_interface_linkage_t :=
  ⟨Or.inl ⟨host_open, "cannot open shared object file", rfl, rfl⟩,
    initialize_load_failure scenario_1_library hosted "missing.lib" version_1_0
      (Or.inl ⟨host_open, "cannot open shared object file", rfl, rfl⟩)⟩

/-- C9 as stated fails: in scenario 1 the names looked up are not the names
`system_version`, `guid_interface_linkage_size`, `guid_interface_linkage`, and
`system_version` is not looked up at all. -/
theorem initialize_lookups_differ_from_spec_names :
    symbol_lookups ( client_interface_t.initialize scenario_1_library hosted "lib_ux_gui.so"
      version_1_0).calls ≠ spec_symbols ∧
    "system_version" ∉ symbol_lookups ( client_interface_t.initialize scenario_1_library
      hosted "lib_ux_gui.so" version_1_0).calls := by
  decide

/-- C9 amended: the names `initialize` looks up are, in this order and at most
once each, `fn_system_version`, `fn_guid_interface_linkage_size` and
`fn_guid_interface_linkage` and no other name; a run that returns normally has
looked up all three. -/
theorem initialize_symbol_lookups (w : shared_library_t) (o : client_interface_t)
    (library : String) (version_number : version_t) :
    List.IsPrefix
      (symbol_lookups ( client_interface_t.initialize w o library version_number).calls)
      required_symbols ∧
    (( client_interface_t.initialize w o library version_number).thrown = none →
      symbol_lookups ( client_interface_t.initialize w o library version_number).calls =
        required_symbols) := by
  obtain ⟨-, -, hpre, -, -⟩ := load_facts o library
  cases ht : (load o library).thrown with
  | none =>
    obtain ⟨p1, p2, p3, hi⟩ := initialize_of_load_ok w o library version_number ht
    rw [hi]
    cases reserved w p2 version_number <;> simp [symbol_lookups, required_symbols]
  | some e =>
    rw [initialize_of_load_thrown w o library version_number e ht]
    simp [hpre]

/-- Witness of `initialize_symbol_lookups` on scenario 1. -/
theorem initialize_symbol_lookups_witness :
    ( client_interface_t.initialize scenario_1_library hosted "lib_ux_gui.so"
      version_1_0).thrown = none ∧
    symbol_lookups ( client_interface_t.initialize scenario_1_library hosted "lib_ux_gui.so"
      version_1_0).calls =
      ["fn_system_version", "fn_guid_interface_linkage_size", "fn_guid_interface_linkage"] :=
  ⟨by decide,
    (initialize_symbol_lookups scenario_1_library hosted "lib_ux_gui.so" version_1_0).2
      (by decide)⟩

/-- C10 as stated fails: the library of this run reports a size beyond
`max_size()`; the load phase passes and the size query is made, but `reserve`
throws `std::length_error` and no fill call is made. The same happens with
`std::bad_alloc` when the storage cannot be allocated. -/
theorem initialize_reserve_throws_before_fill :
    (load hosted "lib_ux_gui.so").thrown = none ∧
    ( client_interface_t.initialize oversized_library hosted "lib_ux_gui.so"
      version_1_0).thrown = some .length_error ∧
    ( client_interface_t.initialize oversized_library hosted "lib_ux_gui.so"
      version_1_0).calls.filter call_t.is_size_query =
      [.guid_interface_linkage_size 102 version_1_0] ∧
    ( client_interface_t.initialize oversized_library hosted "lib_ux_gui.so"
      version_1_0).calls.filter call_t.is_fill = [] ∧
    ( client_interface_t.initialize exhausted_library hosted "lib_ux_gui.so"
      version_1_0).thrown = some .bad_alloc ∧
    ( client_interface_t.initialize exhausted_library hosted "lib_ux_gui.so"
      version_1_0).calls.filter call_t.is_fill = [] := by
  decide

/-- C10 amended: in a run that passes the load phase the size query is made
once, with the caller's `version_number`; when the run returns normally the
fill call is made once, after the size query and with `version_number` too,
and when the run throws no fill call is made; and replacing what the
system-version query returns changes neither the calls made, nor the slots,
nor the outcome. -/
theorem initialize_one_shot_negotiation (w : shared_library_t) (o : client_interface_t)
    (library : String) (version_number : version_t)
    (h : (load o library).thrown = none) :
    (∃ p_size,
      ( client_interface_t.initialize w o library version_number).calls.filter
          call_t.is_size_query =
        [.guid_interface_linkage_size p_size version_number]) ∧
    (( client_interface_t.initialize w o library version_number).thrown = none →
      ∃ p_size p_fill capacity count,
        ( client_interface_t.initialize w o library version_number).calls.filter
            (fun c => c.is_size_query || c.is_fill) =
          [.guid_interface_linkage_size p_size version_number,
            .guid_interface_linkage p_fill version_number capacity count]) ∧
    (( client_interface_t.initialize w o library version_number).thrown ≠ none →
      ( client_interface_t.initialize w o library version_number).calls.filter
        call_t.is_fill = []) ∧
    ∀ sv : raw_ptr_t → version_t,
      ( client_interface_t.initialize { w with system_version := sv } o library
          version_number).calls =
        ( client_interface_t.initialize w o library version_number).calls ∧
      ( client_interface_t.initialize { w with system_version := sv } o library
          version_number).self.tolibrary_interface_linkage_t =
        ( client_interface_t.initialize w o library
          version_number).self.tolibrary_interface_linkage_t ∧
      ( client_interface_t.initialize { w with system_version := sv } o library
          version_number).thrown =
        ( client_interface_t.initialize w o library version_number).thrown := by
  obtain ⟨p1, p2, p3, hl⟩ := (load_facts o library).2.2.2.2 h
  have hi : ∀ w1 : shared_library_t, client_interface_t.initialize w1 o library version_number =
      match reserved w1 p2 version_number with
      | .error e =>
        { calls := .library_open library :: required_symbols.map call_t.library_symbol ++
            [.system_version p1, .guid_interface_linkage_size p2 version_number],
          self := { loaded o p1 p2 p3 with system_version := w1.system_version p1 },
          thrown := some e }
      | .ok link_table =>
        { calls := .library_open library :: required_symbols.map call_t.library_symbol ++
            [.system_version p1, .guid_interface_linkage_size p2 version_number,
              .guid_interface_linkage p3 version_number link_table.capacity 0],
          self := { loaded o p1 p2 p3 with system_version := w1.system_version p1 },
          thrown := none } := by
    intro w1
    unfold client_interface_t.initialize
    simp only [hl, negotiate_loaded]
  have hsv : ∀ sv : raw_ptr_t → version_t,
      reserved { w with system_version := sv } p2 version_number =
        reserved w p2 version_number := fun _ => rfl
  refine ⟨⟨p2, ?_⟩, ?_, ?_, ?_⟩
  · rw [hi w]
    cases reserved w p2 version_number <;>
      simp [required_symbols, call_t.is_size_query]
  · rw [hi w]
    cases hr : reserved w p2 version_number with
    | error e => simp
    | ok link_table =>
      intro _
      exact ⟨p2, p3, link_table.capacity, 0, by
        simp [required_symbols, call_t.is_size_query, call_t.is_fill]⟩
  · rw [hi w]
    cases hr : reserved w p2 version_number with
    | error e => simp [required_symbols, call_t.is_fill]
    | ok link_table => simp
  · intro sv
    rw [hi w, hi { w with system_version := sv }, hsv sv]
    cases reserved w p2 version_number <;> exact ⟨rfl, rfl, rfl⟩

/-- Witness of `initialize_one_shot_negotiation` on scenario 1, with the
library's system version replaced by 0. -/
theorem initialize_one_shot_negotiation_witness :
    (load hosted "lib_ux_gui.so").thrown = none ∧
    ( client_interface_t.initialize scenario_1_library hosted "lib_ux_gui.so"
      version_1_0).thrown = none ∧
    (∃ p_size p_fill capacity count,
      ( client_interface_t.initialize scenario_1_library hosted "lib_ux_gui.so"
          version_1_0).calls.filter (fun c => c.is_size_query || c.is_fill) =
        [.guid_interface_linkage_size p_size version_1_0,
          .guid_interface_linkage p_fill version_1_0 capacity count]) ∧
    ( client_interface_t.initialize { scenario_1_library with system_version := fun _ => 0 }
        hosted "lib_ux_gui.so" version_1_0).calls =
      ( client_interface_t.initialize scenario_1_library hosted "lib_ux_gui.so"
        version_1_0).calls :=
  ⟨by decide, by decide,
    (initialize_one_shot_negotiation scenario_1_library hosted "lib_ux_gui.so" version_1_0
      (by decide)).2.1 (by decide),
    ((initialize_one_shot_negotiation scenario_1_library hosted "lib_ux_gui.so" version_1_0
      (by decide)).2.2.2 (fun _ => 0)).1⟩

/-! ## Further lemmas on the bind loop -/

/-- What the binder of a key stores wraps the pointer it was given. -/
theorem stored_target (g : interface_guid_t) (p : raw_ptr_t)
    (h : (guid_index_find g).isSome = true) :
    ∃ c, stored g p = some c ∧ c.target = p := by
  cases g <;> first | exact ⟨_, rfl, rfl⟩ | cases h

/-- An entry after which no entry of the same GUID follows is the last one for
its GUID. -/
theorem last_ptr_append_cons (g : interface_guid_t) (t1 t2 : List link_table_entry_t)
    (n : link_table_entry_t) (hn : n.guid = g) (h2 : ∀ m ∈ t2, m.guid ≠ g) :
    last_ptr g (t1 ++ n :: t2) = some n.ptr := by
  have hnone : List.find? (fun m => decide (m.guid = g)) t2.reverse = none := by
    rw [List.find?_eq_none]
    intro m hm
    simpa using h2 m (List.mem_reverse.mp hm)
  simp [last_ptr, List.find?_append, hnone, hn]

/-- A table that holds an entry with GUID `g` has a last pointer for `g`. -/
theorem last_ptr_of_mem (t : List link_table_entry_t) (n : link_table_entry_t)
    (h : n ∈ t) : ∃ p, last_ptr n.guid t = some p := by
  induction t with
  | nil => cases h
  | cons m t ih =>
    rw [last_ptr_cons]
    rcases List.mem_cons.mp h with rfl | h
    · cases last_ptr n.guid t <;> simp
    · obtain ⟨p, hp⟩ := ih h
      exact ⟨p, by simp [hp]⟩

/-- C11, evaluated: the keys of `guid_index` are the seventeen constants
below and none of them is for the resource-input sink; whatever table the bind
loop runs over, `fn_input_resource` keeps its value, and on a table with an
entry for every key it is still empty while `save` and the completion notifier
are bound. -/
theorem guid_index_lacks_input_resource :
    guid_index_keys =
      [.fn_save, .fn_restore, .fn_push, .fn_pop, .fn_translate, .fn_rotate,
        .fn_device_offset, .fn_device_scale, .fn_scale, .fn_transform, .fn_matrix,
        .fn_identity, .fn_device, .fn_device_distance, .fn_user, .fn_user_distance,
        .fn_notify_complete] ∧
    (∀ (o : client_interface_t) (t : List link_table_entry_t),
      (bind_table o t).fn_input_resource = o.fn_input_resource) ∧
    (bind_table default_constructed full_table).fn_input_resource = none ∧
    (bind_table default_constructed full_table).fn_save.isSome = true ∧
    (bind_table default_constructed full_table).fn_notify_complete.isSome = true := by
  refine ⟨by decide, ?_, by decide, by decide, by decide⟩
  intro o t
  have h := congrArg (fun x : client_interface_t => x.fn_input_resource)
    (without_keyed_slots_bind_table t o)
  exact h

end uxdevice

namespace uxapi

/-- C12, evaluated: `text_render_normal_t` is declared with the base
`typed_index_t<absolute_coordinate_t>`, so it and `absolute_coordinate_t` are
two distinct classes with the same typed-index tag; it is the only declaration
whose tag is not the class itself, and every alias constant carries the name of
its class. -/
theorem text_render_normal_tags_absolute_coordinate :
    ({ name := "text_render_normal_t", typed_index := "absolute_coordinate_t",
       alias_name := "text_render_normal_t" } : class_declaration_t) ∈ api_declaration ∧
    ({ name := "absolute_coordinate_t", typed_index := "absolute_coordinate_t",
       alias_name := "absolute_coordinate_t" } : class_declaration_t) ∈ api_declaration ∧
    (api_declaration.filter fun c => !c.tags_itself).map (fun c => c.name) =
      ["text_render_normal_t"] ∧
    (api_declaration.all fun c => c.aliases_itself) = true ∧
    (api_declaration.map fun c => c.alias_name).Nodup ∧
    ¬ (api_declaration.map fun c => c.typed_index).Nodup := by
  decide

end uxapi

namespace uxdevice

/-- C13: after the bind loop, the slot named by the `guid` of any entry of the
table that is a key of `guid_index` is non-empty. -/
theorem bind_table_binds_every_known_entry (o : client_interface_t)
    (t : List link_table_entry_t) (n : link_table_entry_t) (hn : n ∈ t)
    (hk : (guid_index_find n.guid).isSome = true) :
    (slot n.guid (bind_table o t)).isSome = true := by
  obtain ⟨p, hp⟩ := last_ptr_of_mem t n hn
  obtain ⟨c, hc, -⟩ := stored_target n.guid p hk
  rw [slot_bind_table, hp]
  simp [hc]

/-- Witness of `bind_table_binds_every_known_entry`: the first `save` entry of
a table in which a `restore` entry and a second `save` entry follow. -/
theorem bind_table_binds_every_known_entry_witness :
    ({ guid := .fn_save, ptr := 11 } : link_table_entry_t) ∈ repeated_save_table ∧
    (guid_index_find interface_guid_t.fn_save).isSome = true ∧
    (slot .fn_save (bind_table hosted repeated_save_table)).isSome = true :=
  ⟨by decide, by decide,
    bind_table_binds_every_known_entry hosted repeated_save_table
      { guid := .fn_save, ptr := 11 } (by decide) (by decide)⟩

/-- C14 as stated fails: the binder of `fn_translate` reinterprets the pointer
as `void(double &, double &)` while the slot is declared `void(double, double)`,
and the binder of `fn_pop` as `void(void)` while the slot is declared
`void(bool)`. -/
theorem binder_signature_differs_from_slot :
    (stored .fn_translate 0).map (fun c => c.signature) = some sig_double_ref2 ∧
    slot_signature .fn_translate = some sig_double2 ∧
    sig_double_ref2 ≠ sig_double2 ∧
    (stored .fn_pop 0).map (fun c => c.signature) = some sig_void ∧
    slot_signature .fn_pop = some sig_bool ∧
    sig_void ≠ sig_bool := by
  decide

/-- C14 amended: for every entry of `guid_index` the binder's signature and the
declared signature of its slot have the same return type; for every entry
other than `fn_pop` they have the same parameters up to the way each one is
passed (value, reference or pointer); and for `fn_save`, `fn_restore`,
`fn_identity` and `fn_notify_complete` they are identical. -/
theorem binder_signature_matches_slot_objects (g : interface_guid_t) (p : raw_ptr_t) :
    (stored g p).map (fun c => c.signature.ret) = (slot_signature g).map (fun s => s.ret) ∧
    (g = .fn_pop ∨
      (stored g p).map (fun c => c.signature.objects) =
        (slot_signature g).map (fun s => s.objects)) ∧
    (stored .fn_save p).map (fun c => c.signature) = slot_signature .fn_save ∧
    (stored .fn_restore p).map (fun c => c.signature) = slot_signature .fn_restore ∧
    (stored .fn_identity p).map (fun c => c.signature) = slot_signature .fn_identity ∧
    (stored .fn_notify_complete p).map (fun c => c.signature) =
      slot_signature .fn_notify_complete := by
  refine ⟨?_, ?_, rfl, rfl, rfl, rfl⟩
  · cases g <;> rfl
  · cases g <;> first | exact Or.inl rfl | exact Or.inr rfl

/-- C15: the binder stored under a key `g` puts a callable wrapping `p` into the
slot named `g`, leaves every other keyed slot and everything outside the keyed
slots as it was; and the keys of `guid_index` are pairwise distinct, so no
other key's binder writes the slot named `g`. -/
theorem binder_writes_own_slot_only (g : interface_guid_t) (b : binder_t)
    (o : client_interface_t) (p : raw_ptr_t) (h : guid_index_find g = some b) :
    (∃ c, slot g (b o p) = some c ∧ c.target = p) ∧
    (∀ g2, g2 ≠ g → slot g2 (b o p) = slot g2 o) ∧
    without_keyed_slots (b o p) = without_keyed_slots o ∧
    guid_index_keys.Nodup := by
  have hb : b o p = bind_entry o { guid := g, ptr := p } := by
    simp [bind_entry, h]
  have hk : (guid_index_find g).isSome = true := by simp [h]
  obtain ⟨c, hc, ht⟩ := stored_target g p hk
  refine ⟨⟨c, ?_, ht⟩, ?_, ?_, by decide⟩
  · rw [hb, slot_bind_entry]
    simp [hc]
  · intro g2 hg
    rw [hb, slot_bind_entry]
    simp [Ne.symm hg]
  · rw [hb, without_keyed_slots_bind_entry]

/-- Witness of `binder_writes_own_slot_only`: the binder of `fn_save` run on an
object whose `save` slot is already bound, with the pointer 21. -/
theorem binder_writes_own_slot_only_witness :
    guid_index_find .fn_save = some save_binder ∧
    (∃ c, slot .fn_save (save_binder bound_save 21) = some c ∧ c.target = 21) ∧
    (∀ g2, g2 ≠ interface_guid_t.fn_save →
      slot g2 (save_binder bound_save 21) = slot g2 bound_save) ∧
    without_keyed_slots (save_binder bound_save 21) = without_keyed_slots bound_save ∧
    guid_index_keys.Nodup :=
  ⟨rfl, binder_writes_own_slot_only .fn_save save_binder bound_save 21 rfl⟩

/-- C16: whatever the library reports, a run of `initialize` that returns
normally has made one fill call, with count 0, has invoked no binder, and
leaves every capability slot as it was before the call. -/
theorem initialize_returns_with_nothing_bound (w : shared_library_t)
    (o : client_interface_t) (library : String) (version_number : version_t)
    (h : ( client_interface_t.initialize w o library version_number).thrown = none) :
    (∃ fn capacity,
      ( client_interface_t.initialize w o library version_number).calls.filter
          call_t.is_fill =
        [.guid_interface_linkage fn version_number capacity 0]) ∧
    ( client_interface_t.initialize w o library version_number).calls.filter
      call_t.is_binder = [] ∧
    ( client_interface_t.initialize w o library
      version_number).self.tolibrary_interface_linkage_t =
      o.tolibrary_interface_linkage_t := by
  cases ht : (load o library).thrown with
  | some e =>
    rw [initialize_of_load_thrown w o library version_number e ht] at h
    cases h
  | none =>
    obtain ⟨p1, p2, p3, hi⟩ := initialize_of_load_ok w o library version_number ht
    rw [hi] at h ⊢
    cases hr : reserved w p2 version_number with
    | error e =>
      rw [hr] at h
      cases h
    | ok link_table =>
      refine ⟨⟨p3, link_table.capacity, ?_⟩, ?_, rfl⟩
      · simp [required_symbols, call_t.is_fill]
      · simp [required_symbols, call_t.is_binder]

/-- Witness of `initialize_returns_with_nothing_bound` on scenario 1, where the
library reports three entries. -/
theorem initialize_returns_with_nothing_bound_witness :
    ( client_interface_t.initialize scenario_1_library hosted "lib_ux_gui.so"
      version_1_0).thrown = none ∧
    (∃ fn capacity,
      ( client_interface_t.initialize scenario_1_library hosted "lib_ux_gui.so"
          version_1_0).calls.filter call_t.is_fill =
        [.guid_interface_linkage fn version_1_0 capacity 0]) ∧
    ( client_interface_t.initialize scenario_1_library hosted "lib_ux_gui.so"
      version_1_0).calls.filter call_t.is_binder = [] ∧
    ( client_interface_t.initialize scenario_1_library hosted "lib_ux_gui.so"
      version_1_0).self.tolibrary_interface_linkage_t =
      hosted.tolibrary_interface_linkage_t :=
  ⟨by decide,
    initialize_returns_with_nothing_bound scenario_1_library hosted "lib_ux_gui.so"
      version_1_0 (by decide)⟩

/-- C17: when the entry `n`, whose `guid` is a key of `guid_index`, is the last
entry of the table with that GUID, then after the bind loop the slot named by
the GUID holds what the binder stores for the pointer of `n`, a callable
wrapping that pointer, whatever precedes `n` in the table and whatever
entries of other GUIDs follow it. -/
theorem bind_table_last_entry_wins (o : client_interface_t)
    (t1 t2 : List link_table_entry_t) (n : link_table_entry_t)
    (hk : (guid_index_find n.guid).isSome = true)
    (h2 : ∀ m ∈ t2, m.guid ≠ n.guid) :
    slot n.guid (bind_table o (t1 ++ n :: t2)) = stored n.guid n.ptr ∧
    ∃ c, slot n.guid (bind_table o (t1 ++ n :: t2)) = some c ∧ c.target = n.ptr := by
  have hs : slot n.guid (bind_table o (t1 ++ n :: t2)) = stored n.guid n.ptr := by
    rw [slot_bind_table, last_ptr_append_cons n.guid t1 t2 n rfl h2]
  obtain ⟨c, hc, ht⟩ := stored_target n.guid n.ptr hk
  exact ⟨hs, c, by rw [hs, hc], ht⟩

/-- Witness of `bind_table_last_entry_wins`: in `repeated_save_table` the
second `save` entry, with pointer 21, decides the `save` slot. -/
theorem bind_table_last_entry_wins_witness :
    (guid_index_find interface_guid_t.fn_save).isSome = true ∧
    (∀ m ∈ [({ guid := .unlisted 0, ptr := 13 } : link_table_entry_t)],
      m.guid ≠ interface_guid_t.fn_save) ∧
    slot .fn_save (bind_table hosted repeated_save_table) = stored .fn_save 21 ∧
    ∃ c, slot .fn_save (bind_table hosted repeated_save_table) = some c ∧ c.target = 21 :=
  ⟨by decide, by decide,
    bind_table_last_entry_wins hosted
      [{ guid := .fn_save, ptr := 11 }, { guid := .fn_restore, ptr := 12 }]
      [{ guid := .unlisted 0, ptr := 13 }] { guid := .fn_save, ptr := 21 }
      (by decide) (by decide)⟩

/-- C18: constructing `client_interface_t(name, version)` throws the
`std::runtime_error` of the catch block, carrying the requested file and
version and the message of `std::bad_function_call`, and no call at all has
left the object: no open, no lookup, no query, no fill, no binder. -/
theorem constructed_throws_before_any_call (w : shared_library_t) (library_name : String)
    (version : version_t) :
    (constructed w library_name version).thrown =
      some (.runtime_error
        { library := library_name, version := version,
          what := exception_t.bad_function_call.what, dlsym_error := w.dlerror }) ∧
    (constructed w library_name version).calls = [] ∧
    (constructed w library_name version).self = default_constructed := by
  exact ⟨rfl, rfl, rfl⟩

end uxdevice
